import Mathlib

/-!
Shallow embedding of the op-status library: the canonical code registry, the
HTTP wire-status registry and the mappings between them, the Status value type
with its derivation operations, the retry-advice policy, and the causal-error
chain walk. Definitions mirror the Go source; Go run-time faults (assignment
into a nil map, the target validation of errors.As) are modelled with Except,
the error payload being the Go fault message.
-/

/-- Detail values stored in the details bag (Go field type any). The claims
only need string payloads, an integer payload is included for generality. -/
inductive GoAny where
  | str (s : String)
  | int (i : Int)
deriving DecidableEq

/-- Lookup in a Go map modelled as an association list. -/
def goMapGet {κ α : Type} [DecidableEq κ] : List (κ × α) → κ → Option α
  | [], _ => none
  | (k₀, v) :: rest, k => if k₀ = k then some v else goMapGet rest k

/-- Insertion into a Go map modelled as an association list: replaces the entry
with the given key when present, otherwise appends a new entry. -/
def goMapPut {α : Type} : List (String × α) → String → α → List (String × α)
  | [], k, v => [(k, v)]
  | (k₀, v₀) :: rest, k, v =>
    if k₀ = k then (k, v) :: rest else (k₀, v₀) :: goMapPut rest k v

/-- ASCII whitespace characters recognized by strings.TrimSpace. -/
def goIsSpace (c : Char) : Bool :=
  c == ' ' || c == '\t' || c == '\n' || c == '\x0b' || c == '\x0c' || c == '\r'

/-- Drops the leading whitespace characters of a character list. -/
def dropLeadingSpace : List Char → List Char
  | [] => []
  | c :: cs => if goIsSpace c then dropLeadingSpace cs else c :: cs

/-- Models strings.TrimSpace on ASCII input: removes leading and trailing
whitespace. -/
def strTrimSpace (s : String) : String :=
  String.mk (List.reverse (dropLeadingSpace (List.reverse (dropLeadingSpace s.data))))

/-- Code represents a status code of an operation. -/
structure Code where
  name : String
  value : Int
deriving DecidableEq

def newCode (name : String) (value : Int) : Code :=
  { name := name, value := value }

def CodeOK : Code := newCode "OK" 0

def CodeCancelled : Code := newCode "OperationCancelled" 1

def CodeUnknown : Code := newCode "UnknownError" 2

def CodeInvalidArgument : Code := newCode "InvalidArgument" 3

def CodeDeadlineExceeded : Code := newCode "DeadlineExceeded" 4

def CodeNotFound : Code := newCode "NotFound" 5

def CodeAlreadyExists : Code := newCode "AlreadyExists" 6

def CodePermissionDenied : Code := newCode "PermissionDenied" 7

def CodeUnauthenticated : Code := newCode "Unauthenticated" 16

def CodeResourceExhausted : Code := newCode "ResourceExhausted" 8

def CodeFailedPrecondition : Code := newCode "FailedPrecondition" 9

def CodeAborted : Code := newCode "OperationAborted" 10

def CodeOutOfRange : Code := newCode "OutOfRange" 11

def CodeUnimplemented : Code := newCode "OperationUnimplemented" 12

def CodeInternal : Code := newCode "InternalError" 13

def CodeUnavailable : Code := newCode "ServiceUnavailable" 14

def CodeDataLoss : Code := newCode "DataLoss" 15

/-- Value returns the numerical value of this code. -/
def Code.Value (c : Code) : Int := c.value

/-- Inserts a code into a list that is sorted by ascending value. -/
def insertByValue (c : Code) : List Code → List Code
  | [] => [c]
  | d :: ds => if c.value < d.value then c :: d :: ds else d :: insertByValue c ds

/-- Sorts a list of codes by ascending value. The source calls sort.Slice with
a comparator on the values; the values of the canonical codes are pairwise
distinct, so any correct sort yields the same, unique, value-sorted
arrangement, which this insertion sort computes. -/
def sortByValue : List Code → List Code
  | [] => []
  | c :: cs => insertByValue c (sortByValue cs)

/-- The canonical codes in the append order of the codeList initializer. -/
def codeListUnsorted : List Code :=
  [CodeOK, CodeCancelled, CodeUnknown, CodeInvalidArgument, CodeDeadlineExceeded,
   CodeNotFound, CodeAlreadyExists, CodePermissionDenied, CodeUnauthenticated,
   CodeResourceExhausted, CodeFailedPrecondition, CodeAborted, CodeOutOfRange,
   CodeUnimplemented, CodeInternal, CodeUnavailable, CodeDataLoss]

/-- codeList contains all the well-defined operation status codes indexed by
their values: the source appends the seventeen canonical codes and then sorts
the list by value. -/
def codeList : List Code := sortByValue codeListUnsorted

/-- Case is an interface carrying a stable string identifier. A Go interface
value is either nil or an implementation; we model it by the optional
identifier. -/
abbrev Case := Option String

/-- Status combines a code, an optional case, a description and a details bag.
The details field is an optional association list: none models a nil Go map. -/
structure Status where
  code : Code
  theCase : Case
  description : String
  details : Option (List (String × GoAny))
deriving DecidableEq

/-- The zero value of the Status struct. -/
def zeroValueStatus : Status :=
  { code := { name := "", value := 0 }, theCase := none, description := "",
    details := none }

/-- newStatus builds the prototype Status for a code: empty description, no
case, and a nil details map. -/
def newStatus (code : Code) : Status :=
  { code := code, theCase := none, description := "", details := none }

/-- statusList contains all the well-defined operation statuses indexed by
their code values: one prototype per entry of codeList, in order. -/
def statusList : List Status := codeList.map newStatus

/-- Go slice indexing into a status slice. Go panics when the index is out of
range; every call site in this development either guards the range first or
indexes with the value of a canonical code, which is in range 0..16 (theorem
code_registry_indexed_by_value), so the fallback value is unreachable there. -/
def goIndexStatus (l : List Status) (i : Int) : Status :=
  if 0 ≤ i then l.getD i.toNat zeroValueStatus else zeroValueStatus

/-- toStatus returns the Status prototype corresponding to this status code. -/
def Code.toStatus (c : Code) : Status := goIndexStatus statusList c.value

def StatusOK : Status := CodeOK.toStatus

def StatusCancelled : Status := CodeCancelled.toStatus

def StatusUnknown : Status := CodeUnknown.toStatus

def StatusInvalidArgument : Status := CodeInvalidArgument.toStatus

def StatusDeadlineExceeded : Status := CodeDeadlineExceeded.toStatus

def StatusNotFound : Status := CodeNotFound.toStatus

def StatusAlreadyExists : Status := CodeAlreadyExists.toStatus

def StatusPermissionDenied : Status := CodePermissionDenied.toStatus

def StatusUnauthenticated : Status := CodeUnauthenticated.toStatus

def StatusResourceExhausted : Status := CodeResourceExhausted.toStatus

def StatusFailedPrecondition : Status := CodeFailedPrecondition.toStatus

def StatusAborted : Status := CodeAborted.toStatus

def StatusOutOfRange : Status := CodeOutOfRange.toStatus

def StatusUnimplemented : Status := CodeUnimplemented.toStatus

def StatusInternal : Status := CodeInternal.toStatus

def StatusUnavailable : Status := CodeUnavailable.toStatus

def StatusDataLoss : Status := CodeDataLoss.toStatus

/-- copyDetails: a nil map is replaced by a fresh empty map; a non-nil map is
copied entrywise, and in this value model the fresh copy has the same
entries. -/
def copyDetails : Option (List (String × GoAny)) → Option (List (String × GoAny))
  | none => some []
  | some m => some m

/-- WithDescription returns a derived instance of this Status with the given
description; leading and trailing whitespace is removed. When the trimmed
description equals the current one, the source returns a shallow copy of the
receiver, which in this value model is the receiver itself. -/
def Status.WithDescription (s : Status) (description : String) : Status :=
  if s.description = strTrimSpace description then s
  else
    { code := s.code, theCase := s.theCase,
      description := strTrimSpace description, details := copyDetails s.details }

/-- Result of fmt.Sprintf(descFmt, fmtArgs) as invoked by WithDescriptionf when
descFmt ends in the verb sequence percent-v and the caller passed one int
argument v: the source forwards the variadic slice fmtArgs to fmt.Sprintf as a
single operand (it writes fmtArgs, without the trailing spread dots), so the
one verb renders the whole one-element argument slice, which the fmt package
prints bracketed. -/
def goSprintfUnspreadIntSlice (descFmt : String) (v : Int) : String :=
  String.dropRight descFmt 2 ++ "[" ++ toString v ++ "]"

/-- WithDescriptionf returns a derived instance of this Status with the
formatted description; see goSprintfUnspreadIntSlice for the fmt.Sprintf
modelling. -/
def Status.WithDescriptionf (s : Status) (descFmt : String) (v : Int) : Status :=
  s.WithDescription (goSprintfUnspreadIntSlice descFmt v)

/-- AugmentDescription returns a derived instance of this Status augmenting the
current description with additional detail: an empty argument yields a copy of
the receiver, otherwise the detail is set as the description or appended to it
on a new line. -/
def Status.AugmentDescription (s : Status) (additionalDetail : String) : Status :=
  if additionalDetail = "" then s
  else if s.description = "" then s.WithDescription additionalDetail
  else s.WithDescription (s.description ++ "\n" ++ additionalDetail)

/-- Go run-time fault message raised by an assignment into a nil map. -/
def nilMapPanicMessage : String := "assignment to entry in nil map"

/-- AddDetail adds a detail about the failure: it trims the key, ignores keys
that trim to empty, and otherwise assigns into the details map of the receiver.
The source has no nil guard on that map, so when details is nil the assignment
is the Go run-time nil-map fault, modelled by the error branch. The mutation of
the receiver is modelled by returning the updated Status. -/
def Status.AddDetail (s : Status) (key : String) (value : GoAny) :
    Except String Status :=
  if strTrimSpace key = "" then Except.ok s
  else
    match s.details with
    | none => Except.error nilMapPanicMessage
    | some m =>
      Except.ok { s with details := some (goMapPut m (strTrimSpace key) value) }

namespace http

def StatusOK : Int := 200

def StatusBadRequest : Int := 400

def StatusUnauthorized : Int := 401

def StatusForbidden : Int := 403

def StatusNotFound : Int := 404

def StatusConflict : Int := 409

def StatusTooManyRequests : Int := 429

def StatusClientClosedRequest : Int := 499

def StatusInternalServerError : Int := 500

def StatusNotImplemented : Int := 501

def StatusServiceUnavailable : Int := 503

def StatusTimeout : Int := 504

/-- statusToName lists the recognized wire statuses with their names. -/
def statusToName : List (Int × String) :=
  [(StatusOK, "OK"), (StatusBadRequest, "BadRequest"),
   (StatusUnauthorized, "Unauthorized"), (StatusForbidden, "Forbidden"),
   (StatusNotFound, "NotFound"), (StatusConflict, "Conflict"),
   (StatusTooManyRequests, "TooManyRequests"),
   (StatusClientClosedRequest, "ClientClosedRequest"),
   (StatusInternalServerError, "InternalServerError"),
   (StatusNotImplemented, "NotImplemented"),
   (StatusServiceUnavailable, "ServiceUnavailable"),
   (StatusTimeout, "Timeout")]

/-- IsDefined tells whether the integer is a recognized wire status: membership
in the statusToName table is the sole admission test. -/
def IsDefined (statusCode : Int) : Bool :=
  (goMapGet statusToName statusCode).isSome

end http

/-- codeToHTTPStatus maps every canonical code to its wire status. -/
def codeToHTTPStatus : List (Code × Int) :=
  [(CodeOK, http.StatusOK),
   (CodeInvalidArgument, http.StatusBadRequest),
   (CodeFailedPrecondition, http.StatusBadRequest),
   (CodeOutOfRange, http.StatusBadRequest),
   (CodeUnauthenticated, http.StatusUnauthorized),
   (CodePermissionDenied, http.StatusForbidden),
   (CodeNotFound, http.StatusNotFound),
   (CodeAborted, http.StatusConflict),
   (CodeAlreadyExists, http.StatusConflict),
   (CodeResourceExhausted, http.StatusTooManyRequests),
   (CodeCancelled, http.StatusClientClosedRequest),
   (CodeDataLoss, http.StatusInternalServerError),
   (CodeUnknown, http.StatusInternalServerError),
   (CodeInternal, http.StatusInternalServerError),
   (CodeUnimplemented, http.StatusNotImplemented),
   (CodeUnavailable, http.StatusServiceUnavailable),
   (CodeDeadlineExceeded, http.StatusTimeout)]

/-- httpStatusToOpStatus maps each recognized wire status back to one canonical
representative Status prototype. -/
def httpStatusToOpStatus : List (Int × Status) :=
  [(http.StatusOK, StatusOK),
   (http.StatusBadRequest, StatusInvalidArgument),
   (http.StatusUnauthorized, StatusUnauthenticated),
   (http.StatusForbidden, StatusPermissionDenied),
   (http.StatusNotFound, StatusNotFound),
   (http.StatusConflict, StatusAlreadyExists),
   (http.StatusTooManyRequests, StatusResourceExhausted),
   (http.StatusClientClosedRequest, StatusCancelled),
   (http.StatusInternalServerError, StatusInternal),
   (http.StatusNotImplemented, StatusUnimplemented),
   (http.StatusServiceUnavailable, StatusUnavailable),
   (http.StatusTimeout, StatusDeadlineExceeded)]

/-- NewByHTTPStatus returns a copy of the status prototype mapped to the given
http status code: an unrecognized code yields a copy of the Unknown prototype,
a recognized one yields the entry of the httpStatusToOpStatus table (the source
logs a diagnostic line, which performs no computation and is not modelled; a
missing table entry would yield the zero Status, unreachable because the table
covers all recognized wire statuses). -/
def NewByHTTPStatus (statusCode : Int) : Status :=
  if !http.IsDefined statusCode then StatusUnknown
  else (goMapGet httpStatusToOpStatus statusCode).getD zeroValueStatus

/-- NewWithCodeValue returns a copy of the status prototype mapped to the given
op status code value; a value outside the range of statusList yields the
Unknown prototype with a description naming the value. -/
def NewWithCodeValue (codeValue : Int) : Status :=
  if codeValue < 0 ∨ (statusList.length : Int) ≤ codeValue then
    StatusUnknown.WithDescriptionf "Unknown op status code: %v" codeValue
  else goIndexStatus statusList codeValue

/-- NewWithCode returns a copy of the status prototype mapped to the given op
status code. -/
def NewWithCode (code : Code) : Status := goIndexStatus statusList code.value

/-- RetryAdvice is the advice on retry for a Status (a string-valued type). -/
abbrev RetryAdvice := String

def JustRetryFailingCall : RetryAdvice := "just_retry_failing_call"

def RetryAtHigherLevel : RetryAdvice := "retry_at_higher_level"

def NotRetryUntilStateFixed : RetryAdvice := "not_retry_until_state_fixed"

def NoAdvice : RetryAdvice := "no_advice"

/-- RetryAdvice provides advice on retry for this status (method of Status). -/
def Status.RetryAdvice (s : Status) : RetryAdvice :=
  if s.code = CodeUnavailable then JustRetryFailingCall
  else if s.code = CodeFailedPrecondition then NotRetryUntilStateFixed
  else if s.code = CodeAborted ∨ s.code = CodeResourceExhausted then
    RetryAtHigherLevel
  else NoAdvice

/-- Reflect kinds relevant to the IsNil inspection. -/
inductive GoKind where
  | invalid
  | boolK
  | intK
  | stringK
  | structK
  | chanK
  | funcK
  | mapK
  | ptrK
  | unsafePtrK
  | ifaceK
  | sliceK
deriving DecidableEq

/-- A non-nil error interface value of a causal chain, described by its dynamic
type. ptrOpError is a value of dynamic type pointer-to-OpError, as produced by
NewWithStatus and NewWithStatusAndCause; nilPtr true models a nil pointer of
that type stored in the interface. wrapper is any other error type that
declares an Unwrap method returning its cause, for example an error produced by
fmt.Errorf with the percent-w verb. leaf is any other error dynamic value, with
its reflect kind and, for the nilable kinds, whether the underlying value is
nil. -/
inductive GoErrVal where
  | ptrOpError (nilPtr : Bool) (status : Status) (cause : Option GoErrVal)
  | wrapper (nilPtr : Bool) (cause : Option GoErrVal)
  | leaf (kind : GoKind) (dynNil : Bool)

/-- NewWithStatus wraps a status into a pointer-to-OpError with no cause. -/
def NewWithStatus (status : Status) : GoErrVal :=
  GoErrVal.ptrOpError false status none

/-- NewWithStatusAndCause wraps a status and a cause into a
pointer-to-OpError. -/
def NewWithStatusAndCause (status : Status) (cause : Option GoErrVal) : GoErrVal :=
  GoErrVal.ptrOpError false status cause

/-- Kind of the dynamic value of the interface, as reflect reports it. -/
def reflectKind : GoErrVal → GoKind
  | GoErrVal.ptrOpError _ _ _ => GoKind.ptrK
  | GoErrVal.wrapper _ _ => GoKind.ptrK
  | GoErrVal.leaf k _ => k

/-- Nilness of the dynamic value, as reflect reports it; meaningful for the
nilable kinds, which are the only kinds at which IsNil consults it. -/
def reflectValueIsNil : GoErrVal → Bool
  | GoErrVal.ptrOpError n _ _ => n
  | GoErrVal.wrapper n _ => n
  | GoErrVal.leaf _ d => d

/-- Kinds at which the switch of IsNil inspects the underlying value. -/
def nilableKind : GoKind → Bool
  | GoKind.chanK => true
  | GoKind.funcK => true
  | GoKind.mapK => true
  | GoKind.ptrK => true
  | GoKind.unsafePtrK => true
  | GoKind.ifaceK => true
  | GoKind.sliceK => true
  | _ => false

/-- IsNil tells whether the given error is absent: a nil interface, a dynamic
value of Invalid kind, or a dynamic value of a nilable kind (channel, function,
map, pointer, unsafe pointer, interface, slice) that is nil; any other non-nil
error yields false. -/
def IsNil (err : Option GoErrVal) : Bool :=
  match err with
  | none => true
  | some v =>
    if reflectKind v = GoKind.invalid then true
    else if nilableKind (reflectKind v) then reflectValueIsNil v
    else false

/-- errors.Unwrap calls the Unwrap method when the dynamic type declares one
and returns nil otherwise. The pointer-to-OpError type declares no Unwrap
method (only Status, Cause and Error), so unwrapping an OpError link yields
nil; a wrapper link yields its cause; any other error yields nil. -/
def errorsUnwrap : GoErrVal → Option GoErrVal
  | GoErrVal.ptrOpError _ _ _ => none
  | GoErrVal.wrapper _ cause => cause
  | GoErrVal.leaf _ _ => none

/-- Whether the Go value type OpError implements the error interface: its only
Error method is declared with a pointer receiver, so the method set of the
value type OpError is empty and the value type does not implement error (the
pointer type does). -/
def opErrorValueImplementsError : Bool := false

/-- Panic message of errors.As when the element type of the target is neither
an interface nor a type implementing error. -/
def errorsAsPanicMessage : String :=
  "errors: *target must be interface or implement error"

/-- Models errors.As(err, target) with a target of type pointer-to-OpError, as
AsOpError calls it: errors.As validates the target first and, because the
element type OpError does not implement error (opErrorValueImplementsError),
it panics for every non-nil err. Were the target valid, errors.As would search
the chain for a link whose dynamic type is the value type OpError; the
constructors only ever produce pointer-to-OpError links, so no link would
match. -/
def errorsAsOpError (err : Option GoErrVal) : Except String Bool :=
  match err with
  | none => Except.ok false
  | some _ =>
    if opErrorValueImplementsError then Except.ok false
    else Except.error errorsAsPanicMessage

/-- AsOpError declares a zero OpError value and calls errors.As on its address.
On a match the source would return the status of the filled target; the target
validation of errors.As faults before any match is attempted, so the match
branch is unreachable and its status is modelled as none (the status pointer of
the zero OpError is nil). -/
def AsOpError (err : GoErrVal) : Except String (Bool × Option Status) :=
  match errorsAsOpError (some err) with
  | Except.error p => Except.error p
  | Except.ok b => Except.ok (b, none)

/-- Loop body of StatusFromErrChain: while the current cause is not IsNil, ask
AsOpError for a match (returning its status on success) and step to the
unwrapped cause otherwise; an exhausted chain yields none. -/
def chainWalk (v : GoErrVal) : Except String (Option Status) :=
  if IsNil (some v) then Except.ok none
  else
    match AsOpError v with
    | Except.error p => Except.error p
    | Except.ok (m, st) =>
      if m then Except.ok st
      else
        match h : errorsUnwrap v with
        | none => Except.ok none
        | some w => chainWalk w
termination_by sizeOf v
decreasing_by
  cases v with
  | ptrOpError n s c => simp [errorsUnwrap] at h
  | wrapper n c =>
    simp only [errorsUnwrap] at h
    subst h
    simp
    omega
  | leaf k b => simp [errorsUnwrap] at h

/-- StatusFromErrChain finds the first OpError of the causal chain of the given
error and returns its status, or none when the chain holds none; a nil (or
nil-looking) error yields none at once. -/
def StatusFromErrChain (err : Option GoErrVal) : Except String (Option Status) :=
  if IsNil err then Except.ok none
  else
    match err with
    | none => Except.ok none
    | some v => chainWalk v

/-- C4: the finalized code registry holds exactly seventeen canonical codes
with unique contiguous values 0..16, and the by-value index has no gaps: for
every index i below seventeen, the code at index i of codeList and the Status
prototype at index i of statusList carry value exactly i. -/
theorem code_registry_indexed_by_value :
    codeList.length = 17 ∧ statusList.length = 17 ∧
    ∀ i : Fin 17,
      (codeList.getD i.val CodeOK).value = (i.val : Int) ∧
      ((statusList.getD i.val zeroValueStatus).code).value = (i.val : Int) := by
  decide

/-- C7: for every canonical code c, the Status returned by NewWithCode carries
code c, and NewWithCodeValue applied to the value of c returns the same Status
as NewWithCode. -/
theorem byCode_byCodeValue_agree :
    ∀ c ∈ codeList, (NewWithCode c).code = c ∧
      NewWithCodeValue c.Value = NewWithCode c := by
  decide

/-- Witness for byCode_byCodeValue_agree at the canonical code CodeNotFound. -/
theorem byCode_byCodeValue_agree_witness :
    (NewWithCode CodeNotFound).code = CodeNotFound ∧
      NewWithCodeValue CodeNotFound.Value = NewWithCode CodeNotFound :=
  byCode_byCodeValue_agree CodeNotFound (by decide)

/-- Single-code check for C8: the code-to-wire table is defined at c, the
wire-to-status table is defined at the image value, and the wire factory
applied to that value returns exactly the mapped representative prototype. -/
def wireRoundTripOK (c : Code) : Bool :=
  match goMapGet codeToHTTPStatus c with
  | none => false
  | some w =>
    match goMapGet httpStatusToOpStatus w with
    | none => false
    | some rep => if NewByHTTPStatus w = rep then true else false

/-- C8: for every canonical code c the code-to-wire mapping is defined, and
applying NewByHTTPStatus to the value of the wire status of c returns, without
failing, the Status fixed by the wire-to-status table for that wire status (a
deterministic representative that need not be c itself, several codes sharing
one wire status). -/
theorem codeToWire_roundtrip_representative :
    ∀ c ∈ codeList, wireRoundTripOK c = true := by
  decide

/-- Witness for codeToWire_roundtrip_representative at CodeDataLoss, a code
whose representative after the round trip is a different code (Internal). -/
theorem codeToWire_roundtrip_representative_witness :
    wireRoundTripOK CodeDataLoss = true :=
  codeToWire_roundtrip_representative CodeDataLoss (by decide)

/-- C9: for every integer that is not a recognized wire status, NewByHTTPStatus
returns the Unknown prototype unmodified: code Unknown and empty description;
IsDefined is the sole admission test the factory consults. -/
theorem byWireStatus_undefined_returns_unknown (v : Int)
    (h : http.IsDefined v = false) :
    NewByHTTPStatus v = StatusUnknown ∧ StatusUnknown.code = CodeUnknown ∧
      StatusUnknown.description = "" := by
  refine ⟨?_, by decide, by decide⟩
  simp [NewByHTTPStatus, h]

/-- Witness for byWireStatus_undefined_returns_unknown at the undefined wire
status 999. -/
theorem byWireStatus_undefined_returns_unknown_witness :
    NewByHTTPStatus 999 = StatusUnknown ∧ StatusUnknown.code = CodeUnknown ∧
      StatusUnknown.description = "" :=
  byWireStatus_undefined_returns_unknown 999 (by decide)

/-- Decidable equality for Except values, used to evaluate the modelled
fallible operations in the theorems below. -/
instance {ε α : Type} [DecidableEq ε] [DecidableEq α] : DecidableEq (Except ε α) :=
  fun x y =>
    match x, y with
    | Except.ok a, Except.ok b =>
      if h : a = b then isTrue (by rw [h])
      else isFalse (by intro hc; cases hc; exact h rfl)
    | Except.error e, Except.error f =>
      if h : e = f then isTrue (by rw [h])
      else isFalse (by intro hc; cases hc; exact h rfl)
    | Except.ok _, Except.error _ => isFalse (by intro hc; cases hc)
    | Except.error _, Except.ok _ => isFalse (by intro hc; cases hc)

/-- C2: evaluation at the out-of-range code values -1 and 999. The code of the
result is Unknown and the description is non-empty and names the offending
value, but it is the bracketed rendering of the unspread argument slice, not
the bare value the claim states: WithDescriptionf forwards its variadic slice
to fmt.Sprintf as a single operand. -/
theorem newWithCodeValue_bracketed_description :
    (NewWithCodeValue (-1)).code = CodeUnknown ∧
    (NewWithCodeValue (-1)).description = "Unknown op status code: [-1]" ∧
    (NewWithCodeValue (-1)).description ≠ "Unknown op status code: -1" ∧
    (NewWithCodeValue 999).code = CodeUnknown ∧
    (NewWithCodeValue 999).description = "Unknown op status code: [999]" ∧
    (NewWithCodeValue 999).description ≠ "Unknown op status code: 999" := by
  decide

/-- The prototype Status returned by NewWithCode for CodeNotFound. -/
def protoNotFound : Status := NewWithCode CodeNotFound

/-- A Status derived from the NotFound prototype with a changed description;
the derivation replaces the nil details map with an empty one. -/
def derivedNotFound : Status := protoNotFound.WithDescription "found nothing"

/-- derivedNotFound after a successful AddDetail of the resource entry. -/
def derivedNotFoundWithDetail : Status :=
  { derivedNotFound with details := some [("resource", GoAny.str "file.txt")] }

/-- C3: evaluation of the detail-bag scenario. The prototype returned by the
factory carries a nil details map, so AddDetail with a non-empty key faults
with the nil-map assignment instead of storing the entry; a key that trims to
empty is ignored even on the prototype; on a Status whose details map is
non-nil (any copy derived with a changed description) AddDetail stores the
entry under the trimmed key, and a further copy derived via WithDescription
with the changed description missing still carries the detail. -/
theorem addDetail_nil_map_fault :
    protoNotFound.details = none ∧
    protoNotFound.AddDetail "resource" (GoAny.str "file.txt")
      = Except.error nilMapPanicMessage ∧
    protoNotFound.AddDetail "   " (GoAny.str "x") = Except.ok protoNotFound ∧
    derivedNotFound.details = some [] ∧
    derivedNotFound.AddDetail " resource " (GoAny.str "file.txt")
      = Except.ok derivedNotFoundWithDetail ∧
    (derivedNotFoundWithDetail.WithDescription "missing").details
      = some [("resource", GoAny.str "file.txt")] := by
  decide

/-- C6: RetryAdvice of a Status is just_retry_failing_call exactly for code
Unavailable, not_retry_until_state_fixed exactly for FailedPrecondition,
retry_at_higher_level exactly for Aborted and ResourceExhausted, and no_advice
exactly for every other code. -/
theorem retryAdvice_classification (s : Status) :
    (s.RetryAdvice = JustRetryFailingCall ↔ s.code = CodeUnavailable) ∧
    (s.RetryAdvice = NotRetryUntilStateFixed ↔ s.code = CodeFailedPrecondition) ∧
    (s.RetryAdvice = RetryAtHigherLevel ↔
      (s.code = CodeAborted ∨ s.code = CodeResourceExhausted)) ∧
    (s.RetryAdvice = NoAdvice ↔
      ¬(s.code = CodeUnavailable ∨ s.code = CodeFailedPrecondition ∨
        s.code = CodeAborted ∨ s.code = CodeResourceExhausted)) := by
  have hd : JustRetryFailingCall ≠ NotRetryUntilStateFixed ∧
      JustRetryFailingCall ≠ RetryAtHigherLevel ∧
      JustRetryFailingCall ≠ NoAdvice ∧
      NotRetryUntilStateFixed ≠ RetryAtHigherLevel ∧
      NotRetryUntilStateFixed ≠ NoAdvice ∧
      RetryAtHigherLevel ≠ NoAdvice := by decide
  have hc : CodeUnavailable ≠ CodeFailedPrecondition ∧
      CodeUnavailable ≠ CodeAborted ∧
      CodeUnavailable ≠ CodeResourceExhausted ∧
      CodeFailedPrecondition ≠ CodeAborted ∧
      CodeFailedPrecondition ≠ CodeResourceExhausted ∧
      CodeAborted ≠ CodeResourceExhausted := by decide
  unfold Status.RetryAdvice
  split_ifs with h1 h2 h3 <;> simp_all <;> tauto

/-- C10: for every Status, WithDescription trims whitespace (so the argument
with blanks around hi yields description hi); AugmentDescription of the empty
string returns a Status with the same code, case and description as the
receiver (the receiver is not modified, every operation being a pure
derivation); AugmentDescription of x on a Status whose description is a yields
the two descriptions joined by a newline; and on a Status whose description is
empty it yields x alone. -/
theorem description_derivation_ops (s : Status) :
    (s.WithDescription "  hi  ").description = "hi" ∧
    ((s.AugmentDescription "").code = s.code ∧
     (s.AugmentDescription "").theCase = s.theCase ∧
     (s.AugmentDescription "").description = s.description) ∧
    (s.description = "a" → (s.AugmentDescription "x").description = "a\nx") ∧
    (s.description = "" → (s.AugmentDescription "x").description = "x") := by
  refine ⟨?_, ?_, ?_, ?_⟩
  · have ht : strTrimSpace "  hi  " = "hi" := by decide
    unfold Status.WithDescription
    rw [ht]
    by_cases h : s.description = "hi"
    · simp [h]
    · simp [h]
  · unfold Status.AugmentDescription
    simp
  · intro h
    unfold Status.AugmentDescription
    rw [h, if_neg (by decide : ¬("x" = "")), if_neg (by decide : ¬(("a" : String) = ""))]
    unfold Status.WithDescription
    rw [h, show strTrimSpace ("a" ++ "\n" ++ "x") = "a\nx" from by decide]
    rw [if_neg (by decide : ¬(("a" : String) = "a\nx"))]
  · intro h
    unfold Status.AugmentDescription
    rw [h, if_neg (by decide : ¬("x" = "")), if_pos rfl]
    unfold Status.WithDescription
    rw [h, show strTrimSpace "x" = "x" from by decide]
    rw [if_neg (by decide : ¬(("" : String) = "x"))]

/-- Witness for description_derivation_ops: the two conditional parts applied
at concrete statuses whose descriptions are a and empty. -/
theorem description_derivation_ops_witness :
    ((({ code := CodeOK, theCase := none, description := "a",
         details := none } : Status).AugmentDescription "x").description
      = "a\nx") ∧
    ((({ code := CodeOK, theCase := none, description := "",
         details := none } : Status).AugmentDescription "x").description
      = "x") :=
  ⟨(description_derivation_ops _).2.2.1 rfl,
   (description_derivation_ops _).2.2.2 rfl⟩

/-- C5: IsNil returns true exactly when the error is the nil interface, or its
dynamic value has Invalid kind, or its dynamic value has one of the nilable
kinds (channel, function, map, pointer, unsafe pointer, interface, slice) and
is nil; it returns false for any other non-nil error. Whenever IsNil holds,
StatusFromErrChain treats the error as absent and returns nothing, so an
error-typed value whose underlying concrete value is a nil pointer is not
inspected as a present error. -/
theorem isNil_kind_characterization (err : Option GoErrVal) :
    (IsNil err = true ↔
      err = none ∨ ∃ v, err = some v ∧
        (reflectKind v = GoKind.invalid ∨
         (nilableKind (reflectKind v) = true ∧ reflectValueIsNil v = true))) ∧
    (IsNil err = true → StatusFromErrChain err = Except.ok none) := by
  constructor
  · cases err with
    | none => simp [IsNil]
    | some v =>
      simp only [IsNil]
      split_ifs with h1 h2 <;> simp_all
  · intro h
    simp [StatusFromErrChain, h]

/-- Witness for isNil_kind_characterization: an error interface holding a nil
pointer of the OpError type is treated as absent by StatusFromErrChain. -/
theorem isNil_kind_characterization_witness :
    StatusFromErrChain (some (GoErrVal.ptrOpError true zeroValueStatus none))
      = Except.ok none :=
  (isNil_kind_characterization
    (some (GoErrVal.ptrOpError true zeroValueStatus none))).2 (by decide)

/-- C1: evaluation of StatusFromErrChain. A nil error yields nothing, as the
claim states; but every non-nil chain — a single OpError, a three-level chain
whose innermost link alone is an OpError, and a chain with no OpError at all —
faults with the target-validation panic of errors.As, because AsOpError passes
a target of element type OpError, a value type that does not implement error
(its Error method has a pointer receiver); the claimed status (or nothing) is
never returned. -/
theorem statusFromErrChain_panics_on_nonnil :
    StatusFromErrChain none = Except.ok none ∧
    StatusFromErrChain (some (NewWithStatus protoNotFound))
      = Except.error errorsAsPanicMessage ∧
    StatusFromErrChain
      (some (GoErrVal.wrapper false (some (GoErrVal.wrapper false
        (some (NewWithStatus protoNotFound))))))
      = Except.error errorsAsPanicMessage ∧
    StatusFromErrChain (some (GoErrVal.leaf GoKind.structK false))
      = Except.error errorsAsPanicMessage := by
  refine ⟨by simp [StatusFromErrChain, IsNil], ?_, ?_, ?_⟩
  all_goals
    simp [StatusFromErrChain, IsNil, reflectKind, nilableKind, reflectValueIsNil,
      NewWithStatus, chainWalk, AsOpError, errorsAsOpError,
      opErrorValueImplementsError]
